import Mathlib

/-!
Verification of the MIC Match frontend core: a shallow embedding of the
Next.js API routes (`src/app/api/match/route.ts`), the stream-consuming hook
(`src/app/hooks/useMatchStream.ts`), the home page's result handling
(`src/app/page.tsx`), and — modelled from the specification, since the Flask
backend sources are not in the repository snapshot — the pipeline orchestrator
and the confidence classifier.

JSON values are modelled by an inductive `Json` type; a JavaScript `undefined`
field is modelled as the absence of the key (`Option Json` = `none`), matching
the fact that `JSON.stringify` drops `undefined`-valued properties.  Numbers
are rationals.
-/

namespace MicMatch

/-- A JSON value.  JavaScript numbers are modelled as rationals. -/
inductive Json where
  | null : Json
  | bool (b : Bool) : Json
  | num (q : ℚ) : Json
  | str (s : String) : Json
  | arr (elems : List Json) : Json
  | obj (fields : List (String × Json)) : Json

/-- Field lookup in an association list of object fields (first match wins;
objects built in this development never repeat a key). -/
def getField : List (String × Json) → String → Option Json
  | [], _ => none
  | (k, v) :: rest, key => if k = key then some v else getField rest key

/-- Property access `j[key]`: `none` models JavaScript `undefined` (missing
key, or access on a non-object value). -/
def Json.get : Json → String → Option Json
  | .obj fields, key => getField fields key
  | _, _ => none

/-- Build a JSON object from optional field values, dropping the absent ones —
the way `JSON.stringify` drops properties whose value is `undefined`. -/
def mkObj (fields : List (String × Option Json)) : Json :=
  .obj (fields.filterMap (fun f => f.2.map (fun v => (f.1, v))))

/-- JavaScript truthiness of a defined value (NaN is not modelled). -/
def jsTruthy : Json → Bool
  | .null => false
  | .bool b => b
  | .num q => q != 0
  | .str s => s != ""
  | .arr _ => true
  | .obj _ => true

/-- JavaScript `a || b` where `a` is a possibly-undefined property read. -/
def jsOr (a : Option Json) (b : Json) : Json :=
  match a with
  | some v => if jsTruthy v then v else b
  | none => b

/-! ### Strings: the `includes` helper used by `isValidYouTubeUrl` -/

/-- Whether `pat` is a prefix of `s` (on character lists). -/
def hasPrefixL : List Char → List Char → Bool
  | [], _ => true
  | _ :: _, [] => false
  | a :: as, b :: bs => a == b && hasPrefixL as bs

/-- Whether `pat` occurs as a contiguous substring of `s` (on character lists). -/
def hasSubL (pat : List Char) : List Char → Bool
  | [] => hasPrefixL pat []
  | c :: rest => hasPrefixL pat (c :: rest) || hasSubL pat rest

/-- JavaScript `s.includes(pat)`. -/
def containsSub (s pat : String) : Bool :=
  hasSubL pat.data s.data

/-- JavaScript `s.endsWith(suff)`. -/
def strEndsWith (s suff : String) : Bool :=
  hasPrefixL suff.data.reverse s.data.reverse

/-- ASCII lower-casing of one character, as `toLowerCase` acts on the ASCII
range (hostnames here are ASCII). -/
def lowerChar (c : Char) : Char :=
  if 65 ≤ c.toNat && c.toNat ≤ 90 then Char.ofNat (c.toNat + 32) else c

/-- JavaScript `s.toLowerCase()` on ASCII strings. -/
def lowerAscii (s : String) : String :=
  String.mk (s.data.map lowerChar)

/-- Split a character list on a separator character (like `splitOn`, keeping
empty segments). -/
def splitOnCharL (sep : Char) : List Char → List (List Char)
  | [] => [[]]
  | c :: rest =>
    let r := splitOnCharL sep rest
    if c == sep then [] :: r
    else
      match r with
      | [] => [[c]]
      | g :: gs => (c :: g) :: gs

/-! ### A model of the WHATWG `URL` constructor

`route.ts` calls `new URL(url)` and reads `hostname`, `pathname` and
`searchParams`.  The parser below models the constructor for the aspects the
route uses: it fails (returns `none`, modelling the thrown `TypeError`) when
the input has no valid scheme, when an authority-form URL has an empty host,
or when a port is present but not numeric.  Percent-decoding and host
punycoding are not modelled (irrelevant to the ASCII keys and hosts the route
inspects). -/

structure URLParts where
  hostname : String
  pathname : String
  searchParams : List (String × String)

/-- A scheme is one alphabetic character followed by alphanumerics, `+`, `-`
or `.`. -/
def isValidScheme : List Char → Bool
  | [] => false
  | c :: rest => c.isAlpha && rest.all (fun d => d.isAlphanum || d == '+' || d == '-' || d == '.')

/-- The segment of the authority after the last `@` (strips userinfo). -/
def afterLastAt (cs : List Char) : List Char :=
  cs.foldl (fun acc c => if c == '@' then [] else acc ++ [c]) []

/-- Parse a query string into name/value pairs, as `URLSearchParams` does
(split on `&`, ignore empty segments, name is the part before the first `=`). -/
def parseQuery (q : String) : List (String × String) :=
  ((splitOnCharL '&' q.data).filter (fun seg => seg != [])).map (fun seg =>
    let nm := seg.takeWhile (fun c => c != '=')
    let vl := if nm.length = seg.length then [] else seg.drop (nm.length + 1)
    (String.mk nm, String.mk vl))

/-- Model of `new URL(url)`: `none` models a thrown `TypeError`. -/
def tryParseURL (url : String) : Option URLParts :=
  let cs := url.data
  let schemeChars := cs.takeWhile (fun c => c != ':')
  if schemeChars.length = cs.length then none
  else if ¬ isValidScheme schemeChars then none
  else
    let rest := cs.drop (schemeChars.length + 1)
    match rest with
    | '/' :: '/' :: after2 =>
      let authority := after2.takeWhile (fun c => c != '/' && c != '?' && c != '#')
      let afterAuth := after2.drop authority.length
      let hostport := afterLastAt authority
      let host := hostport.takeWhile (fun c => c != ':')
      let port := hostport.drop (host.length + 1)
      if host.isEmpty then none
      else if host.length ≠ hostport.length && ¬ port.all Char.isDigit then none
      else
        let pathChars := afterAuth.takeWhile (fun c => c != '?' && c != '#')
        let afterPath := afterAuth.drop pathChars.length
        let query := match afterPath with
          | '?' :: qs => qs.takeWhile (fun c => c != '#')
          | _ => []
        some { hostname := String.mk host,
               pathname := if pathChars.isEmpty then "/" else String.mk pathChars,
               searchParams := parseQuery (String.mk query) }
    | _ =>
      let pathChars := rest.takeWhile (fun c => c != '?' && c != '#')
      let afterPath := rest.drop pathChars.length
      let query := match afterPath with
        | '?' :: qs => qs.takeWhile (fun c => c != '#')
        | _ => []
      some { hostname := "", pathname := String.mk pathChars,
             searchParams := parseQuery (String.mk query) }

/-- `isValidYouTubeUrl` from `src/app/api/match/route.ts` (lines 36-67): the
URL must parse, the hostname must be a YouTube domain (or subdomain), and the
URL must carry a video identifier; a parse failure is caught and yields
`false`. -/
def isValidYouTubeUrl (url : String) : Bool :=
  match tryParseURL url with
  | none => false
  | some urlObj =>
    let hostname := lowerAscii urlObj.hostname
    let validDomains := ["youtube.com", "www.youtube.com", "m.youtube.com", "youtu.be"]
    if ¬ validDomains.any (fun domain => hostname == domain || strEndsWith hostname ("." ++ domain)) then
      false
    else if containsSub hostname "youtu.be" then
      decide (urlObj.pathname.length > 1)
    else
      let hasVideoParam := urlObj.searchParams.any (fun p => p.1 == "v")
      let isEmbedPath := containsSub urlObj.pathname "/embed/"
      let isWatchPath := containsSub urlObj.pathname "/watch"
      hasVideoParam || isEmbedPath || isWatchPath

/-! ### POST /api/match: the SSE transform loop

`route.ts` (lines 151-216) reads the backend's SSE stream line by line and,
for each parsed `data:` line, builds the update forwarded to the client.
`routeTransform` maps one parsed backend JSON event to the forwarded event;
`none` models a line whose transformation threw (the `parseError` catch at
line 209 skips it and continues) — for a `complete` event this happens when
`data.match` is `undefined` or `null`, since `data.match.artist` then throws. -/
def Json.isNull : Json → Bool
  | .null => true
  | _ => false

def routeTransform (data : Json) : Option Json :=
  match data.get "status" with
  | some (.str s) =>
    if s = "complete" then
      match data.get "match" with
      | none => none
      | some m =>
        if m.isNull then none
        else
          some (mkObj [
            ("status", some (.str "complete")),
            ("progress", some (.num 100)),
            ("match", some (mkObj [
                ("artist", m.get "artist"),
                ("title", m.get "title"),
                ("genre", m.get "genre")])),
            ("confidence", data.get "confidence"),
            ("audioSim", data.get "audio_similarity"),
            ("lyricsSim", data.get "lyrics_similarity")])
    else if s = "error" then
      some (.obj [
        ("status", .str "error"),
        ("progress", jsOr (data.get "progress") (.num 0)),
        ("error", jsOr (data.get "error") (jsOr (data.get "message") (.str "Unknown error")))])
    else
      some (mkObj [
        ("status", some (.str s)),
        ("progress", data.get "progress"),
        ("message", data.get "message")])
  | other =>
    some (mkObj [
      ("status", other),
      ("progress", data.get "progress"),
      ("message", data.get "message")])

/-- The response of the POST handler: an immediate JSON response with an HTTP
status, or an SSE stream of forwarded events. -/
inductive PostResponse where
  | jsonRes (status : Nat) (body : Json) : PostResponse
  | sse (events : List Json) : PostResponse

/-- The POST /api/match handler (`route.ts` lines 87-254), modelled on the
validation path and the happy streaming path: `youtubeUrl` is the request
body's field (`none` models an absent field, and the empty string is the
other falsy case of `!body.youtubeUrl`); `backendLines` are the parsed JSON
events of the backend's SSE stream. -/
def POST_match (youtubeUrl : Option String) (backendLines : List Json) : PostResponse :=
  match youtubeUrl with
  | none => .jsonRes 400 (.obj [("error", .str "YouTube URL is required")])
  | some u =>
    if u = "" then .jsonRes 400 (.obj [("error", .str "YouTube URL is required")])
    else if ¬ isValidYouTubeUrl u then .jsonRes 400 (.obj [("error", .str "Invalid YouTube URL format")])
    else .sse (backendLines.filterMap routeTransform)

/-! ### GET /api/songs -/

/-- A song record (`types.ts` lines 4-8). -/
structure Song where
  artist : String
  title : String
  genre : String
deriving DecidableEq

/-- The response of the GET /api/songs handler: `success` is the 200 JSON
response carrying the songs plus a count, `failure` carries the HTTP status
and the error body. -/
inductive SongsGetResponse where
  | success (songs : List Song) (count : Nat) : SongsGetResponse
  | failure (status : Nat) (error : String) (details : String) : SongsGetResponse

/-- The GET /api/songs handler (second file embedded in `route.ts`, lines
284-343): `fileRead` is the outcome of `readFileSync` + `JSON.parse`
(`Except.error` carries the exception message). -/
def GET_songs (fileRead : Except String (List Song)) : SongsGetResponse :=
  match fileRead with
  | .ok songs => .success songs songs.length
  | .error e =>
    if containsSub e "ENOENT" then
      .failure 404 "Songs file not found" "studio_songs.json could not be located"
    else
      .failure 500 "Failed to load songs" e

/-! ### Confidence tiers and the home page's result handling -/

/-- The confidence tiers (`types.ts` line 21). -/
inductive Confidence where
  | HIGH | MODERATE | LOW | VERY_LOW
deriving DecidableEq

/-- The wire name of a confidence tier. -/
def confidenceName : Confidence → String
  | .HIGH => "HIGH"
  | .MODERATE => "MODERATE"
  | .LOW => "LOW"
  | .VERY_LOW => "VERY_LOW"

/-- Modelled from the spec: the confidence classifier lives in the Flask
backend (`backend/matcher_v7.py`), which is not part of the repository
snapshot; this is the gap-to-tier table of spec section 4.3 (HIGH for gap at
least 0.20, MODERATE at least 0.10, LOW at least 0.05, VERY_LOW below,
boundaries inclusive on the lower edge of each band). -/
def classifyConfidence (gap : ℚ) : Confidence :=
  if 1/5 ≤ gap then .HIGH
  else if 1/10 ≤ gap then .MODERATE
  else if 1/20 ≤ gap then .LOW
  else .VERY_LOW

/-- The identity of a matched track as carried by a `complete` update
(`types.ts` lines 15-19: genre is optional). -/
structure MatchInfo where
  artist : String
  title : String
  genre : Option String
deriving DecidableEq

/-- A typed terminal-success update as consumed by the home page (the
`data.status === 'complete'` branch of `page.tsx`). -/
structure CompleteUpdateT where
  matchInfo : MatchInfo
  confidence : Confidence
  audioSim : ℚ
  lyricsSim : ℚ

/-- The home page's result state (`page.tsx` lines 13-18: `match` and
`confidence` are nullable). -/
structure PageResult where
  matched : Option MatchInfo
  confidence : Option Confidence
  audioSim : ℚ
  lyricsSim : ℚ

/-- `setResult` on a `complete` event (`page.tsx` lines 113-120): the event's
payload is stored unchanged, whatever the confidence tier. -/
def pageOnComplete (u : CompleteUpdateT) : PageResult :=
  { matched := some u.matchInfo
    confidence := some u.confidence
    audioSim := u.audioSim
    lyricsSim := u.lyricsSim }

/-- What the results section renders (`page.tsx` lines 287-399): the match
card, the needs-review card (both show the matched track), or the
no-match-found card, which shows no track. -/
inductive ResultView where
  | matchFound (song : Option MatchInfo) (confidence : Confidence) : ResultView
  | needsReview (song : Option MatchInfo) (confidence : Confidence) : ResultView
  | noMatchFound : ResultView
deriving DecidableEq

/-- The conditional chain of the results section (`page.tsx` lines 290, 337,
384): HIGH or MODERATE renders the match card, LOW renders needs-review,
anything else renders no-match-found. -/
def renderResult (r : PageResult) : ResultView :=
  match r.confidence with
  | some .HIGH => .matchFound r.matched .HIGH
  | some .MODERATE => .matchFound r.matched .MODERATE
  | some .LOW => .needsReview r.matched .LOW
  | _ => .noMatchFound

/-! ### The useMatchStream hook -/

/-- Whether a forwarded event is terminal (`update.status === 'complete' ||
update.status === 'error'`, `useMatchStream.ts` line 79). -/
def isTerminalEvent (u : Json) : Bool :=
  match u.get "status" with
  | some (.str s) => s == "complete" || s == "error"
  | _ => false

/-- Whether a forwarded event is a terminal error. -/
def isErrorEvent (u : Json) : Bool :=
  match u.get "status" with
  | some (.str s) => s == "error"
  | _ => false

/-- The hook's state (`useMatchStream.ts`): the last update, the streaming
flag, the error state, plus whether `reader.cancel()` has been called. -/
structure HookState where
  currentUpdate : Option Json
  isStreaming : Bool
  error : Option Json
  readerCancelled : Bool

/-- The state right after `startMatch` begins (`useMatchStream.ts` lines
24-26). -/
def initialHookState : HookState :=
  { currentUpdate := none, isStreaming := true, error := none, readerCancelled := false }

/-- The hook's read loop (`useMatchStream.ts` lines 50-91) over the parsed
`data:` lines of the response: `none` models a line that is skipped (blank,
not a `data:` line, or a JSON parse failure).  On a terminal update the loop
stores the update, clears the streaming flag, stores `update.error` when the
status is `error`, cancels the reader and stops; when the stream is drained
without a terminal update, the `done` branch clears the streaming flag. -/
def processLines : List (Option Json) → HookState → HookState
  | [], st => { st with isStreaming := false }
  | none :: rest, st => processLines rest st
  | some u :: rest, st =>
    let st1 := { st with currentUpdate := some u }
    if isTerminalEvent u then
      { st1 with
          isStreaming := false
          error := if isErrorEvent u then u.get "error" else st1.error
          readerCancelled := true }
    else
      processLines rest st1

/-! ### The pipeline orchestrator, modelled from the spec

Modelled from the spec: the pipeline orchestrator is the Flask backend
(`backend/app.py`), which is not part of the repository snapshot — only its
README and the Next.js route that consumes it are.  Spec section 4.4 gives
the state machine (downloading, fingerprinting, transcribing, matching, then
complete, with error reachable from any non-terminal state, both terminal)
and the start milestones 0/25/50/75; section 7 gives the failure milestones
25/50/75/90; section 6 gives the event shapes.  Field names of the backend's
complete event follow what the route handler reads (`match.artist`,
`match.title`, `match.genre`, `confidence`, `audio_similarity`,
`lyrics_similarity`), and the failure description travels in `message`, as in
the backend README's error example. -/

/-- The four pipeline stages, in order. -/
inductive Stage where
  | downloading | fingerprinting | transcribing | matching
deriving DecidableEq

/-- The wire status name of a stage. -/
def Stage.statusName : Stage → String
  | .downloading => "downloading"
  | .fingerprinting => "fingerprinting"
  | .transcribing => "transcribing"
  | .matching => "matching"

/-- The milestone emitted when a stage starts (spec section 4.4). -/
def Stage.milestone : Stage → ℚ
  | .downloading => 0
  | .fingerprinting => 25
  | .transcribing => 50
  | .matching => 75

/-- The milestone carried by a failure of each stage (spec section 7:
25/50/75/90 for download/fingerprint/transcribe/match failures). -/
def Stage.failMilestone : Stage → ℚ
  | .downloading => 25
  | .fingerprinting => 50
  | .transcribing => 75
  | .matching => 90

/-- The stages that have started once `s` has started, in order. -/
def stagesThrough : Stage → List Stage
  | .downloading => [.downloading]
  | .fingerprinting => [.downloading, .fingerprinting]
  | .transcribing => [.downloading, .fingerprinting, .transcribing]
  | .matching => [.downloading, .fingerprinting, .transcribing, .matching]

/-- The data of a successful match, as carried by the backend's terminal
success event. -/
structure MatchOutcome where
  artist : String
  title : String
  genre : Option String
  gap : ℚ
  audioSim : ℚ
  lyricsSim : ℚ

/-- One pipeline run: an optional per-stage progress message, the first
failing stage with its failure message (or none), and the match outcome
reported when every stage succeeds. -/
structure RunSpec where
  msgs : Stage → Option String
  failAt : Option (Stage × String)
  outcome : MatchOutcome

/-- The backend's progress event at the start of a stage. -/
def progressEvent (r : RunSpec) (s : Stage) : Json :=
  mkObj [("status", some (.str s.statusName)),
         ("progress", some (.num s.milestone)),
         ("message", (r.msgs s).map .str)]

/-- The backend's terminal error event for a failure of stage `s`. -/
def errorEvent (s : Stage) (msg : String) : Json :=
  .obj [("status", .str "error"),
        ("progress", .num s.failMilestone),
        ("message", .str msg)]

/-- The backend's terminal success event. -/
def completeEvent (o : MatchOutcome) : Json :=
  mkObj [("status", some (.str "complete")),
         ("progress", some (.num 100)),
         ("match", some (mkObj [("artist", some (.str o.artist)),
                                ("title", some (.str o.title)),
                                ("genre", o.genre.map .str)])),
         ("confidence", some (.str (confidenceName (classifyConfidence o.gap)))),
         ("audio_similarity", some (.num o.audioSim)),
         ("lyrics_similarity", some (.num o.lyricsSim))]

/-- The event sequence the orchestrator produces for one run: progress events
for each stage that starts, then exactly one terminal event, then nothing. -/
def orchestrate (r : RunSpec) : List Json :=
  match r.failAt with
  | some (s, msg) => (stagesThrough s).map (progressEvent r) ++ [errorEvent s msg]
  | none =>
    ([.downloading, .fingerprinting, .transcribing, .matching].map (progressEvent r))
      ++ [completeEvent r.outcome]

/-- The match stream as served to the client: the route's transform applied
to every backend event (skipping dropped lines). -/
def matchStreamEvents (r : RunSpec) : List Json :=
  (orchestrate r).filterMap routeTransform

/-- Whether a status string is one of the four pipeline stage names. -/
def stageStatus (s : String) : Bool :=
  s == "downloading" || s == "fingerprinting" || s == "transcribing" || s == "matching"

/-- Well-formedness of a non-terminal event per the wire contract: a stage
status, an integer progress between 0 and 100, and a message that is absent
or a string. -/
def wellFormedNonTerminal (u : Json) : Bool :=
  match u.get "status", u.get "progress", u.get "message" with
  | some (.str s), some (.num p), msg =>
    stageStatus s && decide ((0 : ℚ) ≤ p) && decide (p ≤ (100 : ℚ)) && decide (p.den = 1) &&
      (match msg with
       | none => true
       | some (.str _) => true
       | _ => false)
  | _, _, _ => false

/-- The terminal error event the route forwards for a failure of stage `s`
with backend message `msg` (the route renames the description field to
`error` and re-reads the progress with a `|| 0` fallback). -/
def emittedError (s : Stage) (msg : String) : Json :=
  .obj [("status", .str "error"),
        ("progress", .num s.failMilestone),
        ("error", if msg = "" then .str "Unknown error" else .str msg)]

/-- The terminal success event the route forwards for outcome `o`. -/
def forwardedComplete (o : MatchOutcome) : Json :=
  mkObj [("status", some (.str "complete")),
         ("progress", some (.num 100)),
         ("match", some (mkObj [("artist", some (.str o.artist)),
                                ("title", some (.str o.title)),
                                ("genre", o.genre.map .str)])),
         ("confidence", some (.str (confidenceName (classifyConfidence o.gap)))),
         ("audioSim", some (.num o.audioSim)),
         ("lyricsSim", some (.num o.lyricsSim))]

/-! ### Concrete sample data for witnesses and counterexamples -/

/-- The matched-track object of the concrete backend success event below. -/
def c1Match : Json :=
  .obj [("artist", .str "Oasis"), ("title", .str "Wonderwall"), ("genre", .str "Rock")]

/-- A concrete backend terminal-success event. -/
def c1Backend : Json :=
  .obj [("status", .str "complete"),
        ("match", c1Match),
        ("confidence", .str "HIGH"),
        ("audio_similarity", .num 1),
        ("lyrics_similarity", .num 1)]

/-- The event the route forwards for `c1Backend`. -/
def c1Forwarded : Json :=
  .obj [("status", .str "complete"), ("progress", .num 100),
        ("match", c1Match),
        ("confidence", .str "HIGH"),
        ("audioSim", .num 1), ("lyricsSim", .num 1)]

/-- A concrete backend terminal-failure event (transcription stage). -/
def c2Backend : Json :=
  .obj [("status", .str "error"), ("progress", .num 50),
        ("message", .str "Transcription failed")]

/-- A concrete match outcome. -/
def sampleOutcome : MatchOutcome :=
  { artist := "Oasis", title := "Wonderwall", genre := some "Rock",
    gap := 1, audioSim := 1, lyricsSim := 1 }

/-- A concrete run that fails at the download stage. -/
def sampleFailRun : RunSpec :=
  { msgs := fun _ => none, failAt := some (.downloading, "Download failed"),
    outcome := sampleOutcome }

/-- A concrete run in which every stage succeeds. -/
def sampleOkRun : RunSpec :=
  { msgs := fun _ => none, failAt := none, outcome := sampleOutcome }

/-- A concrete non-terminal line as received by the hook. -/
def sampleProgressLine : Json :=
  .obj [("status", .str "transcribing"), ("progress", .num 50),
        ("message", .str "Transcribing lyrics...")]

/-- A concrete terminal error line as received by the hook. -/
def sampleErrorLine : Json :=
  .obj [("status", .str "error"), ("progress", .num 75),
        ("error", .str "Transcription timed out")]

/-- Two concrete songs. -/
def sampleSongA : Song := { artist := "Oasis", title := "Wonderwall", genre := "Rock" }

def sampleSongB : Song := { artist := "Nirvana", title := "Smells Like Teen Spirit", genre := "Grunge" }

/-! ## Helper lemmas -/

/-- Sanity checks of the URL validator embedding on concrete inputs. -/
theorem isValidYouTubeUrl_samples :
    isValidYouTubeUrl "https://www.youtube.com/watch?v=abc123" = true ∧
    isValidYouTubeUrl "https://youtu.be/abc123" = true ∧
    isValidYouTubeUrl "https://youtu.be/" = false ∧
    isValidYouTubeUrl "https://vimeo.com/12345" = false ∧
    isValidYouTubeUrl "https://www.youtube.com/" = false ∧
    isValidYouTubeUrl "http://m.youtube.com/embed/xyz" = true := by decide

@[simp]
theorem get_mkObj_nil (key : String) : (mkObj []).get key = none := rfl

@[simp]
theorem get_mkObj_cons_none (k : String) (rest : List (String × Option Json)) (key : String) :
    (mkObj ((k, none) :: rest)).get key = (mkObj rest).get key := by
  simp [mkObj, Json.get]

@[simp]
theorem get_mkObj_cons_some (k : String) (x : Json) (rest : List (String × Option Json))
    (key : String) :
    (mkObj ((k, some x) :: rest)).get key =
      if k = key then some x else (mkObj rest).get key := by
  simp [mkObj, Json.get, getField]

theorem isNull_eq_false_of_ne (m : Json) (h : m ≠ .null) : m.isNull = false := by
  cases m <;> simp_all [Json.isNull]

/-- The route forwards any event whose status is neither `complete` nor
`error` unchanged (its transform rebuilds the same three fields). -/
theorem routeTransform_generic (name : String) (p : ℚ) (msg : Option String)
    (hname1 : name ≠ "complete") (hname2 : name ≠ "error") :
    routeTransform (mkObj [("status", some (.str name)), ("progress", some (.num p)),
        ("message", msg.map .str)]) =
      some (mkObj [("status", some (.str name)), ("progress", some (.num p)),
        ("message", msg.map .str)]) := by
  cases msg <;> simp [routeTransform, mkObj, Json.get, getField, hname1, hname2]

/-- The route forwards a backend progress event unchanged. -/
theorem routeTransform_progressEvent (r : RunSpec) (s : Stage) :
    routeTransform (progressEvent r s) = some (progressEvent r s) := by
  unfold progressEvent
  exact routeTransform_generic s.statusName s.milestone (r.msgs s)
    (by cases s <;> decide) (by cases s <;> decide)

/-- The route's transform of a backend terminal error event: the description
moves from `message` to a field named `error`, the milestone survives the
`|| 0` fallback because all failure milestones are nonzero. -/
theorem routeTransform_errorEvent (s : Stage) (msg : String) :
    routeTransform (errorEvent s msg) = some (emittedError s msg) := by
  by_cases hm : msg = "" <;>
    cases s <;>
      simp [errorEvent, emittedError, routeTransform, Json.get, getField, jsOr, jsTruthy,
        Stage.failMilestone, hm]

/-- The route's transform of a backend terminal success event. -/
theorem routeTransform_completeEvent (o : MatchOutcome) :
    routeTransform (completeEvent o) = some (forwardedComplete o) := by
  cases hg : o.genre <;>
    simp [completeEvent, forwardedComplete, routeTransform, mkObj, Json.get, getField,
      Json.isNull, hg]

theorem isTerminalEvent_generic (name : String) (p : ℚ) (msg : Option String)
    (hname1 : name ≠ "complete") (hname2 : name ≠ "error") :
    isTerminalEvent (mkObj [("status", some (.str name)), ("progress", some (.num p)),
      ("message", msg.map .str)]) = false := by
  cases msg <;>
    simp [isTerminalEvent, mkObj, Json.get, getField, hname1, hname2]

theorem isTerminalEvent_progressEvent (r : RunSpec) (s : Stage) :
    isTerminalEvent (progressEvent r s) = false := by
  unfold progressEvent
  exact isTerminalEvent_generic s.statusName s.milestone (r.msgs s)
    (by cases s <;> decide) (by cases s <;> decide)

theorem isErrorEvent_generic (name : String) (p : ℚ) (msg : Option String)
    (hname : name ≠ "error") :
    isErrorEvent (mkObj [("status", some (.str name)), ("progress", some (.num p)),
      ("message", msg.map .str)]) = false := by
  cases msg <;> simp [isErrorEvent, mkObj, Json.get, getField, hname]

theorem isErrorEvent_progressEvent (r : RunSpec) (s : Stage) :
    isErrorEvent (progressEvent r s) = false := by
  unfold progressEvent
  exact isErrorEvent_generic s.statusName s.milestone (r.msgs s) (by cases s <;> decide)

theorem isTerminalEvent_emittedError (s : Stage) (msg : String) :
    isTerminalEvent (emittedError s msg) = true := rfl

theorem isErrorEvent_emittedError (s : Stage) (msg : String) :
    isErrorEvent (emittedError s msg) = true := rfl

theorem isTerminalEvent_forwardedComplete (o : MatchOutcome) :
    isTerminalEvent (forwardedComplete o) = true := by
  cases hg : o.genre <;> simp [forwardedComplete, isTerminalEvent, mkObj, Json.get, getField]

theorem isErrorEvent_forwardedComplete (o : MatchOutcome) :
    isErrorEvent (forwardedComplete o) = false := by
  cases hg : o.genre <;> simp [forwardedComplete, isErrorEvent, mkObj, Json.get, getField]

theorem wellFormedNonTerminal_generic (name : String) (p : ℚ) (msg : Option String)
    (hname : stageStatus name = true) (hp : 0 ≤ p ∧ p ≤ 100 ∧ p.den = 1) :
    wellFormedNonTerminal (mkObj [("status", some (.str name)), ("progress", some (.num p)),
      ("message", msg.map .str)]) = true := by
  obtain ⟨h0, h100, hden⟩ := hp
  cases msg <;>
    simp [wellFormedNonTerminal, mkObj, Json.get, getField, hname, h0, h100, hden]

theorem wellFormedNonTerminal_progressEvent (r : RunSpec) (s : Stage) :
    wellFormedNonTerminal (progressEvent r s) = true := by
  unfold progressEvent
  exact wellFormedNonTerminal_generic s.statusName s.milestone (r.msgs s)
    (by cases s <;> decide) (by cases s <;> decide)

/-- Mapping the transform over progress events forwards them all. -/
theorem filterMap_routeTransform_progress (r : RunSpec) (l : List Stage) :
    (l.map (progressEvent r)).filterMap routeTransform = l.map (progressEvent r) := by
  induction l with
  | nil => rfl
  | cons s t ih => rw [List.map_cons, List.filterMap_cons, routeTransform_progressEvent, ih]

/-- Decomposition of the client-visible stream: the forwarded progress events
of the stages that started, then exactly one forwarded terminal event. -/
theorem matchStreamEvents_eq (r : RunSpec) :
    matchStreamEvents r =
      match r.failAt with
      | some (s, msg) => (stagesThrough s).map (progressEvent r) ++ [emittedError s msg]
      | none =>
        ([.downloading, .fingerprinting, .transcribing, .matching].map (progressEvent r))
          ++ [forwardedComplete r.outcome] := by
  rcases hf : r.failAt with _ | ⟨s, msg⟩ <;>
    · unfold matchStreamEvents orchestrate
      rw [hf]
      rw [List.filterMap_append, filterMap_routeTransform_progress, List.filterMap_cons]
      first
      | rw [routeTransform_completeEvent]; rfl
      | rw [routeTransform_errorEvent]; rfl

/-! ## Claim theorems -/

/-- Claim C8: for every input string, `isValidYouTubeUrl` returns a boolean
and never throws — a URL-parse failure is caught and yields `false` (the
`catch` branch at `route.ts` line 64; totality over all strings is the type
of the embedding itself). -/
theorem url_validation_parse_failure_yields_false (s : String)
    (h : tryParseURL s = none) : isValidYouTubeUrl s = false := by
  simp [isValidYouTubeUrl, h]

/-- Witness for C8 at the concrete non-URL input "not a url". -/
theorem url_validation_parse_failure_yields_false_witness :
    tryParseURL "not a url" = none ∧ isValidYouTubeUrl "not a url" = false :=
  ⟨rfl, url_validation_parse_failure_yields_false "not a url" rfl⟩

/-- Claim C4: a request whose YouTube URL is missing, empty or malformed is
answered with an immediate HTTP 400 JSON error body and no SSE stream — no
staged progress or error event is emitted for it, whatever the backend would
have sent. -/
theorem invalid_url_rejected_before_pipeline (u : Option String) (lines : List Json)
    (h : u = none ∨ u = some "" ∨ isValidYouTubeUrl (u.getD "") = false) :
    (POST_match u lines = .jsonRes 400 (.obj [("error", .str "YouTube URL is required")]) ∨
      POST_match u lines = .jsonRes 400 (.obj [("error", .str "Invalid YouTube URL format")])) ∧
    ∀ evs, POST_match u lines ≠ .sse evs := by
  rcases u with _ | s
  · exact ⟨.inl rfl, fun evs hevs => by cases hevs⟩
  · by_cases hs : s = ""
    · subst hs
      refine ⟨.inl (by simp [POST_match]), fun evs hevs => ?_⟩
      simp [POST_match] at hevs
    · have hv : isValidYouTubeUrl s = false := by
        rcases h with h | h | h
        · exact absurd h (by simp)
        · exact absurd (by injection h) hs
        · simpa using h
      refine ⟨.inr (by simp [POST_match, hs, hv]), fun evs hevs => ?_⟩
      simp [POST_match, hs, hv] at hevs

/-- Witness for C4 at the concrete malformed input "not a url". -/
theorem invalid_url_rejected_before_pipeline_witness :
    (POST_match (some "not a url") [c2Backend]
        = .jsonRes 400 (.obj [("error", .str "YouTube URL is required")]) ∨
      POST_match (some "not a url") [c2Backend]
        = .jsonRes 400 (.obj [("error", .str "Invalid YouTube URL format")])) ∧
    ∀ evs, POST_match (some "not a url") [c2Backend] ≠ .sse evs :=
  invalid_url_rejected_before_pipeline (some "not a url") [c2Backend]
    (.inr (.inr (by decide)))

/-- Claim C9: in every 200 response of GET /api/songs, the `count` field
equals the length of the `songs` array of the same response. -/
theorem songs_count_matches_length (fr : Except String (List Song))
    (songs : List Song) (count : Nat)
    (h : GET_songs fr = .success songs count) : count = songs.length := by
  cases fr with
  | ok s =>
    simp only [GET_songs] at h
    cases h
    rfl
  | error e =>
    simp only [GET_songs] at h
    split_ifs at h

/-- Witness for C9 at a concrete two-song file. -/
theorem songs_count_matches_length_witness :
    (2 : Nat) = [sampleSongA, sampleSongB].length :=
  songs_count_matches_length (.ok [sampleSongA, sampleSongB]) [sampleSongA, sampleSongB] 2 rfl

/-- Claim C5: the confidence tier is HIGH exactly when the gap is at least
0.20 (= 1/5), MODERATE exactly on [0.10, 0.20), LOW exactly on [0.05, 0.10),
and VERY_LOW exactly below 0.05, each band's lower boundary inclusive
(classifier modelled from the spec, see `classifyConfidence`). -/
theorem confidence_tier_bands (g : ℚ) :
    (classifyConfidence g = .HIGH ↔ 1/5 ≤ g) ∧
    (classifyConfidence g = .MODERATE ↔ 1/10 ≤ g ∧ g < 1/5) ∧
    (classifyConfidence g = .LOW ↔ 1/20 ≤ g ∧ g < 1/10) ∧
    (classifyConfidence g = .VERY_LOW ↔ g < 1/20) := by
  unfold classifyConfidence
  split_ifs with h1 h2 h3 <;>
    refine ⟨⟨fun hh => ?_, fun hh => ?_⟩, ⟨fun hh => ?_, fun hh => ?_⟩,
      ⟨fun hh => ?_, fun hh => ?_⟩, ⟨fun hh => ?_, fun hh => ?_⟩⟩ <;>
    first
    | rfl
    | exact absurd hh (by decide)
    | linarith
    | (refine ⟨?_, ?_⟩ <;> linarith)

/-- Claim C6: the page stores a completed match's payload unchanged whatever
the tier (nothing is discarded before the rendering decision), and the
results section renders the trackless no-match-found card exactly when the
confidence is VERY_LOW; every other tier renders a card carrying the matched
track. -/
theorem very_low_suppression_is_ui_decision (u : CompleteUpdateT) :
    (pageOnComplete u).matched = some u.matchInfo ∧
    (pageOnComplete u).confidence = some u.confidence ∧
    (pageOnComplete u).audioSim = u.audioSim ∧
    (pageOnComplete u).lyricsSim = u.lyricsSim ∧
    (renderResult (pageOnComplete u) = .noMatchFound ↔ u.confidence = .VERY_LOW) ∧
    (renderResult (pageOnComplete u) = .matchFound (some u.matchInfo) u.confidence ∨
      renderResult (pageOnComplete u) = .needsReview (some u.matchInfo) u.confidence ∨
      renderResult (pageOnComplete u) = .noMatchFound) := by
  obtain ⟨mi, c, a, l⟩ := u
  refine ⟨rfl, rfl, rfl, rfl, ?_, ?_⟩ <;> cases c <;> simp [pageOnComplete, renderResult]

/-- Counterexample for claim C1: the route's forwarded terminal success event
for a concrete backend success carries no `combinedScore`, `gap` or `top5`
field, contrary to the claimed wire shape. -/
theorem complete_update_missing_fields_counterexample :
    routeTransform c1Backend = some c1Forwarded ∧
    c1Forwarded.get "status" = some (.str "complete") ∧
    c1Forwarded.get "progress" = some (.num 100) ∧
    c1Forwarded.get "combinedScore" = none ∧
    c1Forwarded.get "gap" = none ∧
    c1Forwarded.get "top5" = none :=
  ⟨rfl, rfl, rfl, rfl, rfl, rfl⟩

/-- Claim C1 as amended: every terminal success event forwarded by the route
has status `complete`, progress 100, the matched track (artist, title,
optional genre) and the `confidence`, `audioSim`, `lyricsSim` values read
from the backend event — and carries no `combinedScore`, `gap` or `top5`
field. -/
theorem complete_update_shape (d m : Json)
    (hs : d.get "status" = some (.str "complete"))
    (hm : d.get "match" = some m) (hnn : m ≠ .null) :
    ∃ u, routeTransform d = some u ∧
      u.get "status" = some (.str "complete") ∧
      u.get "progress" = some (.num 100) ∧
      (∃ mu, u.get "match" = some mu ∧ mu.get "artist" = m.get "artist" ∧
        mu.get "title" = m.get "title" ∧ mu.get "genre" = m.get "genre") ∧
      u.get "confidence" = d.get "confidence" ∧
      u.get "audioSim" = d.get "audio_similarity" ∧
      u.get "lyricsSim" = d.get "lyrics_similarity" ∧
      u.get "combinedScore" = none ∧
      u.get "gap" = none ∧
      u.get "top5" = none := by
  have hnull := isNull_eq_false_of_ne m hnn
  refine ⟨mkObj [("status", some (.str "complete")), ("progress", some (.num 100)),
      ("match", some (mkObj [("artist", m.get "artist"), ("title", m.get "title"),
        ("genre", m.get "genre")])),
      ("confidence", d.get "confidence"), ("audioSim", d.get "audio_similarity"),
      ("lyricsSim", d.get "lyrics_similarity")], ?_,
    ?_, ?_,
    ⟨mkObj [("artist", m.get "artist"), ("title", m.get "title"), ("genre", m.get "genre")],
      ?_, ?_, ?_, ?_⟩,
    ?_, ?_, ?_, ?_, ?_, ?_⟩
  · simp [routeTransform, hs, hm, hnull]
  all_goals
    cases hc : d.get "confidence" <;> cases ha : d.get "audio_similarity" <;>
      cases hl : d.get "lyrics_similarity" <;>
        cases hart : m.get "artist" <;> cases htit : m.get "title" <;>
          cases hgen : m.get "genre" <;>
            simp [hc, ha, hl, hart, htit, hgen]

/-- Witness for the amended C1 at the concrete backend event `c1Backend`. -/
theorem complete_update_shape_witness :
    ∃ u, routeTransform c1Backend = some u ∧
      u.get "status" = some (.str "complete") ∧
      u.get "progress" = some (.num 100) ∧
      (∃ mu, u.get "match" = some mu ∧ mu.get "artist" = c1Match.get "artist" ∧
        mu.get "title" = c1Match.get "title" ∧ mu.get "genre" = c1Match.get "genre") ∧
      u.get "confidence" = c1Backend.get "confidence" ∧
      u.get "audioSim" = c1Backend.get "audio_similarity" ∧
      u.get "lyricsSim" = c1Backend.get "lyrics_similarity" ∧
      u.get "combinedScore" = none ∧
      u.get "gap" = none ∧
      u.get "top5" = none :=
  complete_update_shape c1Backend c1Match rfl rfl (fun h => Json.noConfusion h)

/-- Counterexample for claim C2: for a concrete backend failure event the
forwarded terminal failure event carries its description in a field named
`error` and has no `message` field at all. -/
theorem error_update_message_field_counterexample :
    routeTransform c2Backend = some (.obj [("status", .str "error"), ("progress", .num 50),
        ("error", .str "Transcription failed")]) ∧
    (Json.obj [("status", .str "error"), ("progress", .num 50),
        ("error", .str "Transcription failed")]).get "message" = none :=
  ⟨rfl, rfl⟩

/-- Claim C2 as amended: every terminal failure event of the match stream is
an object with status `error`, the failed stage's milestone progress
(25/50/75/90 for download/fingerprint/transcribe/match failures), and the
human-readable description carried in a field named `error` — not `message`
(backend orchestrator modelled from the spec). -/
theorem error_update_shape (r : RunSpec) (s : Stage) (msg : String)
    (hfail : r.failAt = some (s, msg)) (hmsg : msg ≠ "") :
    ∃ pre, matchStreamEvents r = pre ++
        [Json.obj [("status", .str "error"), ("progress", .num s.failMilestone),
                   ("error", .str msg)]] ∧
      (Json.obj [("status", .str "error"), ("progress", .num s.failMilestone),
                 ("error", .str msg)]).get "status" = some (.str "error") ∧
      (Json.obj [("status", .str "error"), ("progress", .num s.failMilestone),
                 ("error", .str msg)]).get "progress" = some (.num s.failMilestone) ∧
      (Json.obj [("status", .str "error"), ("progress", .num s.failMilestone),
                 ("error", .str msg)]).get "error" = some (.str msg) ∧
      (Json.obj [("status", .str "error"), ("progress", .num s.failMilestone),
                 ("error", .str msg)]).get "message" = none := by
  refine ⟨(stagesThrough s).map (progressEvent r), ?_, rfl, rfl, rfl, rfl⟩
  simp only [matchStreamEvents_eq r, hfail]
  simp [emittedError, hmsg]

/-- Witness for the amended C2 at the concrete failing run `sampleFailRun`. -/
theorem error_update_shape_witness :
    ∃ pre, matchStreamEvents sampleFailRun = pre ++
        [Json.obj [("status", .str "error"),
                   ("progress", .num (Stage.failMilestone .downloading)),
                   ("error", .str "Download failed")]] ∧
      (Json.obj [("status", .str "error"),
                 ("progress", .num (Stage.failMilestone .downloading)),
                 ("error", .str "Download failed")]).get "status" = some (.str "error") ∧
      (Json.obj [("status", .str "error"),
                 ("progress", .num (Stage.failMilestone .downloading)),
                 ("error", .str "Download failed")]).get "progress"
        = some (.num (Stage.failMilestone .downloading)) ∧
      (Json.obj [("status", .str "error"),
                 ("progress", .num (Stage.failMilestone .downloading)),
                 ("error", .str "Download failed")]).get "error"
        = some (.str "Download failed") ∧
      (Json.obj [("status", .str "error"),
                 ("progress", .num (Stage.failMilestone .downloading)),
                 ("error", .str "Download failed")]).get "message" = none :=
  error_update_shape sampleFailRun .downloading "Download failed" rfl (by decide)

/-- Claim C3: for every pipeline run, the match stream consists of
non-terminal events followed by exactly one terminal event, which is the last
event of the run — nothing follows it; moreover the stream carries exactly
one error event when a stage fails and none otherwise (backend orchestrator
modelled from the spec). -/
theorem terminal_event_ends_stream (r : RunSpec) :
    (∃ pre last, matchStreamEvents r = pre ++ [last] ∧
        (∀ u ∈ pre, isTerminalEvent u = false) ∧ isTerminalEvent last = true) ∧
    (matchStreamEvents r).countP isErrorEvent = (if r.failAt.isSome then 1 else 0) := by
  rcases hf : r.failAt with _ | ⟨s, msg⟩ <;> simp only [matchStreamEvents_eq r, hf]
  · refine ⟨⟨_, _, rfl, ?_, isTerminalEvent_forwardedComplete r.outcome⟩, ?_⟩
    · intro u hu
      rcases List.mem_map.mp hu with ⟨t, _, rfl⟩
      exact isTerminalEvent_progressEvent r t
    · have h0 : (([Stage.downloading, .fingerprinting, .transcribing,
          .matching]).map (progressEvent r)).countP isErrorEvent = 0 := by
        rw [List.countP_eq_zero]
        intro u hu
        rcases List.mem_map.mp hu with ⟨t, _, rfl⟩
        simp [isErrorEvent_progressEvent]
      rw [List.countP_append, h0]
      simp [List.countP_cons, isErrorEvent_forwardedComplete]
  · refine ⟨⟨_, _, rfl, ?_, isTerminalEvent_emittedError s msg⟩, ?_⟩
    · intro u hu
      rcases List.mem_map.mp hu with ⟨t, _, rfl⟩
      exact isTerminalEvent_progressEvent r t
    · have h0 : ((stagesThrough s).map (progressEvent r)).countP isErrorEvent = 0 := by
        rw [List.countP_eq_zero]
        intro u hu
        rcases List.mem_map.mp hu with ⟨t, _, rfl⟩
        simp [isErrorEvent_progressEvent]
      simp [List.countP_append, h0, List.countP_cons, isErrorEvent_emittedError]

/-- Witness for C3 at the concrete failing run `sampleFailRun`. -/
theorem terminal_event_ends_stream_witness :
    (∃ pre last, matchStreamEvents sampleFailRun = pre ++ [last] ∧
        (∀ u ∈ pre, isTerminalEvent u = false) ∧ isTerminalEvent last = true) ∧
    (matchStreamEvents sampleFailRun).countP isErrorEvent
      = (if sampleFailRun.failAt.isSome then 1 else 0) :=
  terminal_event_ends_stream sampleFailRun

/-- Claim C7: every non-terminal event forwarded to the client has one of the
four stage statuses, an integer progress between 0 and 100, and a message
that is absent or a string (backend orchestrator modelled from the spec). -/
theorem nonterminal_events_wellformed (r : RunSpec) (u : Json)
    (hu : u ∈ matchStreamEvents r) (ht : isTerminalEvent u = false) :
    wellFormedNonTerminal u = true := by
  rcases hf : r.failAt with _ | ⟨s, msg⟩ <;> simp only [matchStreamEvents_eq r, hf] at hu <;>
    rcases List.mem_append.mp hu with h | h
  · rcases List.mem_map.mp h with ⟨t, _, rfl⟩
    exact wellFormedNonTerminal_progressEvent r t
  · rw [List.mem_singleton.mp h, isTerminalEvent_forwardedComplete] at ht
    cases ht
  · rcases List.mem_map.mp h with ⟨t, _, rfl⟩
    exact wellFormedNonTerminal_progressEvent r t
  · rw [List.mem_singleton.mp h, isTerminalEvent_emittedError] at ht
    cases ht

/-- Witness for C7 at the first event of the concrete run `sampleFailRun`. -/
theorem nonterminal_events_wellformed_witness :
    wellFormedNonTerminal (progressEvent sampleFailRun .downloading) = true :=
  nonterminal_events_wellformed sampleFailRun (progressEvent sampleFailRun .downloading)
    (List.Mem.head _) rfl

/-- Claim C10: once the hook processes the first terminal event of the
stream, it stops: the streaming flag is false, the reader has been cancelled
(so no later line of that run is ever processed), the terminal update is the
stored one, and on a terminal error the hook's error state is the event's
`error` value. -/
theorem hook_terminal_stops_stream (pre rest : List (Option Json)) (u : Json) (st : HookState)
    (hpre : ∀ v ∈ pre.filterMap id, isTerminalEvent v = false)
    (hu : isTerminalEvent u = true) :
    (processLines (pre ++ some u :: rest) st).isStreaming = false ∧
    (processLines (pre ++ some u :: rest) st).readerCancelled = true ∧
    (processLines (pre ++ some u :: rest) st).currentUpdate = some u ∧
    (isErrorEvent u = true → (processLines (pre ++ some u :: rest) st).error = u.get "error") := by
  induction pre generalizing st with
  | nil =>
    exact ⟨by simp [processLines, hu], by simp [processLines, hu],
      by simp [processLines, hu], fun herr => by simp [processLines, hu, herr]⟩
  | cons v t ih =>
    cases v with
    | none =>
      exact ih st (fun w hw => hpre w (by simpa using hw))
    | some w =>
      have hw : isTerminalEvent w = false := hpre w (by simp)
      have step : processLines ((some w :: t) ++ some u :: rest) st
          = processLines (t ++ some u :: rest) { st with currentUpdate := some w } := by
        simp [processLines, hw]
      rw [step]
      exact ih _ (fun x hx => hpre x (by simp; exact .inr (by simpa using hx)))

/-- Witness for C10: a skipped line and a progress line followed by a
concrete terminal error line. -/
theorem hook_terminal_stops_stream_witness :
    (processLines ([none, some sampleProgressLine] ++ some sampleErrorLine :: [])
        initialHookState).isStreaming = false ∧
    (processLines ([none, some sampleProgressLine] ++ some sampleErrorLine :: [])
        initialHookState).readerCancelled = true ∧
    (processLines ([none, some sampleProgressLine] ++ some sampleErrorLine :: [])
        initialHookState).currentUpdate = some sampleErrorLine ∧
    (isErrorEvent sampleErrorLine = true →
      (processLines ([none, some sampleProgressLine] ++ some sampleErrorLine :: [])
        initialHookState).error = sampleErrorLine.get "error") :=
  hook_terminal_stops_stream [none, some sampleProgressLine] [] sampleErrorLine
    initialHookState
    (by
      intro v hv
      have hv' : v = sampleProgressLine := by simpa using hv
      rw [hv']
      rfl)
    rfl

end MicMatch
